import Mathlib

/-!
Shallow embedding of the shorty URL-shortener backend (src/backend/src/index.ts)
and theorems checking the specification claims against it.

The embedding models the TypeScript code directly: pure helper functions become
Lean functions; calls to external services (Supabase, Redis, the QR library)
become explicit parameters describing the outcome of each call; JS `Date`
values become integer milliseconds since the epoch, with a proleptic-Gregorian
calendar structure used where the code does calendar arithmetic (date-fns
`add`).  JS exceptions become `Except String`.
-/

namespace Shorty

/-- Model of JS `String.prototype.toLowerCase` on the ASCII fragment used by
the program (short codes and aliases are drawn from `[A-Za-z0-9_-]`): each
character in the uppercase range `A`-`Z` is shifted to its lowercase form. -/
def jsToLower (s : String) : String := ⟨s.data.map Char.toLower⟩

/-- A string contains an ASCII uppercase letter (`A`-`Z`). -/
def hasUpperChar (s : String) : Bool :=
  s.data.any (fun c => 65 ≤ c.toNat && c.toNat ≤ 90)

/-- RESERVED_WORDS from index.ts: administrative route names a custom alias
must never shadow. -/
def RESERVED_WORDS : List String :=
  ["admin", "login", "signup", "stats", "api", "shorten", "auth", "logout"]

/-- isReserved from index.ts: case-insensitive membership in RESERVED_WORDS. -/
def isReserved (word : String) : Bool :=
  RESERVED_WORDS.contains (jsToLower word)

/-- A character allowed by the custom-alias regex `[a-zA-Z0-9_-]`. -/
def isAliasChar (c : Char) : Bool :=
  (48 ≤ c.toNat && c.toNat ≤ 57) || (65 ≤ c.toNat && c.toNat ≤ 90) ||
    (97 ≤ c.toNat && c.toNat ≤ 122) || c = '_' || c = '-'

/-- isValidCustomAlias from index.ts: the regex test
`^[a-zA-Z0-9_-]{3,30}$` — 3 to 30 characters, each from `[a-zA-Z0-9_-]`. -/
def isValidCustomAlias (s : String) : Bool :=
  3 ≤ s.data.length && s.data.length ≤ 30 && s.data.all isAliasChar

/-- Character-list prefix test (the byte-level `String.startsWith` of the
runtime, stated over the character data so proofs and evaluation are
straightforward). -/
def strStarts (s p : String) : Bool := p.data.isPrefixOf s.data

/-- Character-list drop, the counterpart of `String.drop`. -/
def strDrop (s : String) (n : Nat) : String := ⟨s.data.drop n⟩

/-- Model of the `validator.isURL` library call as configured in index.ts
(`protocols: [http, https], require_protocol: true`): the string must start
with an `http://` or `https://` scheme, have a nonempty host containing a
dot before any `/`, and contain no spaces. -/
def isValidUrl (url : String) : Bool :=
  if strStarts url "http://" then validHostPath (strDrop url 7)
  else if strStarts url "https://" then validHostPath (strDrop url 8)
  else false
where
  /-- The part after the scheme: nonempty dotted host, no space anywhere. -/
  validHostPath (rest : String) : Bool :=
    !(rest.data.takeWhile (fun c => c ≠ '/')).isEmpty &&
      (rest.data.takeWhile (fun c => c ≠ '/')).contains '.' &&
      rest.data.all (fun c => c ≠ ' ')

/-- normalizeUrl from index.ts: prepend `https://` unless the URL already
starts with `http://` or `https://` (the regex `/^https?:\x2f\x2f/i` is
case-insensitive, hence the lowercasing of the inspected prefix). -/
def normalizeUrl (url : String) : String :=
  if strStarts (jsToLower url) "http://" || strStarts (jsToLower url) "https://" then url
  else "https://" ++ url

/-! ## Calendar model

JS `Date` instants are integer milliseconds.  The calendar functions below
implement proleptic-Gregorian civil-day counting, which is exactly the
arithmetic of `Date.UTC` and of date-fns month/year addition. -/

/-- A civil date-time: year, month (1-12), day of month, millisecond of day. -/
structure DateTime where
  year : Int
  month : Nat
  day : Nat
  msOfDay : Nat
deriving DecidableEq, Repr

/-- Gregorian leap-year test. -/
def isLeap (y : Int) : Bool :=
  y % 4 = 0 && (y % 100 ≠ 0 || y % 400 = 0)

/-- Number of days in a month of a given year (the non-February months via
the standard parity formula: 30 + (m + m/8) mod 2). -/
def daysInMonth (y : Int) (m : Nat) : Nat :=
  if m = 2 then (if isLeap y then 29 else 28) else 30 + (m + m / 8) % 2

/-- The date is a real calendar date and the time of day is in range. -/
def ValidDate (dt : DateTime) : Prop :=
  1 ≤ dt.month ∧ dt.month ≤ 12 ∧ 1 ≤ dt.day ∧ dt.day ≤ daysInMonth dt.year dt.month ∧
    dt.msOfDay < 86400000

instance (dt : DateTime) : Decidable (ValidDate dt) := by
  unfold ValidDate; infer_instance

/-- Civil day number of a date (days relative to the epoch of the formula;
only differences matter).  March-based year so the leap day is the last day
of the shifted year; the `(153 * mp + 2) / 5` term is the standard day-of-
shifted-year formula. -/
def toDays (dt : DateTime) : Int :=
  let y : Int := if dt.month ≤ 2 then dt.year - 1 else dt.year
  let mp : Int := if dt.month ≤ 2 then (dt.month : Int) + 9 else (dt.month : Int) - 3
  365 * y + y / 4 - y / 100 + y / 400 + (153 * mp + 2) / 5 + ((dt.day : Int) - 1)

/-- Milliseconds-since-epoch instant of a civil date-time (JS `Date` value). -/
def toMs (dt : DateTime) : Int :=
  toDays dt * 86400000 + (dt.msOfDay : Int)

/-- date-fns `addMonths`: advance the month index, clamping the day of month
to the length of the target month. -/
def addMonths (dt : DateTime) (n : Int) : DateTime :=
  let total : Int := 12 * dt.year + ((dt.month : Int) - 1) + n
  let y := total / 12
  let m : Nat := (total % 12).toNat + 1
  { year := y, month := m, day := min dt.day (daysInMonth y m), msOfDay := dt.msOfDay }

/-- The instant produced by date-fns `add(now, \x7b [unit]: count \x7d)` for the
units accepted by validateAndComputeExpiry: fixed-length arithmetic for
minutes/hours/days, calendar arithmetic for months/years. -/
def dateFnsAddMs (now : DateTime) (count : Int) (unit : String) : Int :=
  if unit = "minutes" then toMs now + count * 60000
  else if unit = "hours" then toMs now + count * 3600000
  else if unit = "days" then toMs now + count * 86400000
  else if unit = "months" then toMs (addMonths now count)
  else toMs (addMonths now (12 * count))

/-- The units accepted by validateAndComputeExpiry for a relative expiry. -/
def validUnits : List String := ["minutes", "hours", "days", "months", "years"]

/-- A relative expiry request body: `\x7b count, unit \x7d`. -/
structure RelativeExpiry where
  count : Int
  unit : String
deriving DecidableEq, Repr

/-- Outcome of convertLocalToUTC on a present `expires_at` string: either the
string does not parse (`invalid`, giving a NaN date) or it resolves to a UTC
instant. -/
inductive AbsParse where
  | invalid
  | utc (t : Int)
deriving DecidableEq, Repr

/-- MIN_EXPIRY_MS from index.ts: one hour. -/
def MIN_EXPIRY_MS : Int := 60 * 60 * 1000

/-- MAX_EXPIRY_MS from index.ts: approximately three months (90 days). -/
def MAX_EXPIRY_MS : Int := 3 * 30 * 24 * 60 * 60 * 1000

/-- The error message of the shared duration bound check. -/
def outOfBoundsMsg : String :=
  "Expiry duration out of bounds: minimum 1 hour, maximum 3 months"

/-- validateAndComputeExpiry from index.ts.  Returns `none` when no expiry
was requested, `some t` for a computed UTC expiry instant, and an error
message for each rejection, in the order of the code: absolute-form parse
and future checks, relative-form unit check, then the shared duration bound
check applied to whichever form produced an expiration. -/
def validateAndComputeExpiry (now : DateTime) (expires_at : Option AbsParse)
    (relative_expiry : Option RelativeExpiry) : Except String (Option Int) :=
  match expires_at with
  | some .invalid => .error "Invalid expires_at format"
  | some (.utc t) =>
      if t ≤ toMs now then .error "Expiration time must be in the future"
      else boundCheck t
  | none =>
      match relative_expiry with
      | some r =>
          if !validUnits.contains r.unit then .error "Invalid relative_expiry format"
          else boundCheck (dateFnsAddMs now r.count r.unit)
      | none => .ok none
where
  /-- The shared `durationMs` bound check at the end of the function. -/
  boundCheck (t : Int) : Except String (Option Int) :=
    if t - toMs now < MIN_EXPIRY_MS || t - toMs now > MAX_EXPIRY_MS then
      .error outOfBoundsMsg
    else .ok (some t)

/-! ## The link repository and the read endpoints -/

/-- A row of the `urls` table. -/
structure UrlRow where
  short_code : String
  original_url : String
  expires_at : Option Int
  clicks : Int
  qr_code_url : Option String
deriving DecidableEq, Repr

/-- The Supabase lookup `.eq("short_code", code).single()`: the row whose
short_code equals the given code, if any. -/
def findByCode (rows : List UrlRow) (code : String) : Option UrlRow :=
  rows.find? (fun r => r.short_code == code)

/-- The expiry test of the read paths and of the sweeper:
`expires_at` is non-null and strictly before `now` (a null `expires_at` is
never expired, and is also not matched by the SQL `lt` filter). -/
def isExpiredAt (r : UrlRow) (now : Int) : Bool :=
  match r.expires_at with
  | some t => t < now
  | none => false

/-- What the redirect route `GET /:slug` answers. -/
inductive RedirectOutcome where
  | notFoundJson
  | notFoundPage
  | expiredJson
  | expiredPage
  | jsonEcho (url : String)
  | redirect (url : String)
deriving DecidableEq, Repr

/-- The redirect route `GET /:slug` from index.ts: look the slug up as sent
(no case normalization), 404 when absent, 410/expired-page when the record
is expired, otherwise the JSON echo (for API callers) or the redirect to
`original_url`.  `apiIntent` models the Accept/X-Requested-With sniffing. -/
def redirectHandler (rows : List UrlRow) (slug : String) (now : Int)
    (apiIntent : Bool) : RedirectOutcome :=
  match findByCode rows slug with
  | none => if apiIntent then .notFoundJson else .notFoundPage
  | some r =>
      if isExpiredAt r now then
        if apiIntent then .expiredJson else .expiredPage
      else if apiIntent then .jsonEcho r.original_url
      else .redirect r.original_url

/-- The stats route `GET /stats/:slug` from index.ts: the slug is lowercased,
then looked up; `some r` models the 200 response carrying the whole row,
`none` the 404.  The route has no expiry check. -/
def statsHandler (rows : List UrlRow) (slug : String) : Option UrlRow :=
  findByCode rows (jsToLower slug)

/-! ## The rate limiter -/

/-- RATE_LIMIT_WINDOW from index.ts (seconds). -/
def RATE_LIMIT_WINDOW : Int := 60

/-- MAX_REQUESTS_PER_WINDOW from index.ts. -/
def MAX_REQUESTS_PER_WINDOW : Nat := 20

/-- The counter-store entry for one client key: counter value and optional
absolute expiry instant (Redis TTL).  `none` means the key is absent. -/
abbrev RedisState := Option (Nat × Option Int)

/-- The live value of the key at time `now` (Redis lazy expiration: a key
whose expiry has passed behaves as absent). -/
def liveVal (st : RedisState) (now : Int) : RedisState :=
  match st with
  | none => none
  | some (c, none) => some (c, none)
  | some (c, some e) => if e ≤ now then none else some (c, some e)

/-- Redis INCR: a missing (or expired) key is created at 1 with no TTL;
otherwise the counter is incremented, keeping its TTL. -/
def redisIncr (st : RedisState) (now : Int) : Nat × RedisState :=
  match liveVal st now with
  | none => (1, some (1, none))
  | some (c, ttl) => (c + 1, some (c + 1, ttl))

/-- Redis EXPIRE: attach a TTL of `secs` seconds to a live key. -/
def redisExpire (st : RedisState) (now : Int) (secs : Int) : RedisState :=
  match liveVal st now with
  | none => none
  | some (c, _) => some (c, some (now + secs))

/-- What the rateLimiter middleware does with a request: pass it on to the
handler, or answer 429 with the advertised retry-after seconds. -/
inductive RateOutcome where
  | allowed
  | limited (retryAfter : Int)
deriving DecidableEq, Repr

/-- Which counter-store call, if any, throws during this request. -/
inductive RedisFailure where
  | ok
  | onIncr
  | onExpire
deriving DecidableEq, Repr

/-- rateLimiter from index.ts: INCR the per-client counter; on the first
count of a window, EXPIRE it to the window length; beyond
MAX_REQUESTS_PER_WINDOW answer 429 whose message advertises
RATE_LIMIT_WINDOW seconds; any thrown counter-store error is caught, logged
(the third component) and the request is admitted (fail open).  The EXPIRE
call is only reached on the first count of a window, so an `onExpire` fault
on a later count is a run with no thrown error. -/
def rateLimiter (st : RedisState) (now : Int) (f : RedisFailure) :
    RateOutcome × RedisState × Bool :=
  match f with
  | .onIncr => (.allowed, st, true)
  | .onExpire =>
      let (cnt, st1) := redisIncr st now
      if cnt = 1 then (.allowed, st1, true)
      else if cnt > MAX_REQUESTS_PER_WINDOW then (.limited RATE_LIMIT_WINDOW, st1, false)
      else (.allowed, st1, false)
  | .ok =>
      let (cnt, st1) := redisIncr st now
      let st2 := if cnt = 1 then redisExpire st1 now RATE_LIMIT_WINDOW else st1
      if cnt > MAX_REQUESTS_PER_WINDOW then (.limited RATE_LIMIT_WINDOW, st2, false)
      else (.allowed, st2, false)

/-- A sequence of requests from the same client at the given instants, with
no counter-store failures: the outcomes in order and the final store state. -/
def runLimiter : List Int → RedisState → List RateOutcome × RedisState
  | [], st => ([], st)
  | t :: ts, st =>
      let (o, st1, _) := rateLimiter st t .ok
      let (os, st2) := runLimiter ts st1
      (o :: os, st2)

/-! ## The shortening orchestrator -/

/-- FRONTEND_PUBLIC_URL default from index.ts. -/
def FRONTEND_PUBLIC_URL : String := "https://shorty-linky.vercel.app"

/-- Model of `supabase.storage.from("qrcodes").getPublicUrl(path)`: a pure
function of the path — the call constructs the URL string locally and cannot
fail, whether or not the object exists. -/
def publicUrlFor (code : String) : String :=
  "qrcodes/qr/" ++ code ++ ".png"

/-- The body of a `POST /shorten` request, with JS absence modeled as
`none`/empty string and the `expires_at` string already pushed through
convertLocalToUTC (an external Intl computation) as an `AbsParse`. -/
structure ShortenReq where
  original_url : String
  expires_at : Option AbsParse := none
  relative_expiry : Option RelativeExpiry := none
  custom_alias : Option String := none
deriving Repr

/-- Outcomes of the external-service calls made by one run of shortenUrl:
the pre-insert existence check, the unique-slug generator, the insert, the
QR render, the artifact upload and the qr_code_url patch. -/
structure Env where
  existing : String → Bool
  genSlug : String
  genFails : Bool
  insertError : Option String
  qrRenderFails : Bool
  qrErrMsg : String
  uploadFails : Bool
  updateFails : Bool

/-- The 201 response body of a successful shortenUrl run. -/
structure ShortenResp where
  short_url : String
  qr_code_url : String
  expires_at_utc : Option Int
deriving DecidableEq, Repr

/-- Result of a shortenUrl run: the thrown-or-returned value, the row left
in the urls table by this run (if the insert happened), and whether the
artifact upload succeeded. -/
structure ShortenOutcome where
  result : Except String ShortenResp
  insertedRow : Option UrlRow
  artifactStored : Bool
deriving Repr

/-- generateUniqueSlug followed by the `.toLowerCase()` at its call site:
either the attempt budget is exhausted (the thrown message) or the generated
slug, lowercased. -/
def genCode (env : Env) : Except String String :=
  if env.genFails then .error "Failed to generate unique slug after several attempts"
  else .ok (jsToLower env.genSlug)

/-- The custom-alias section of shortenUrl: lowercase the alias, then the
reserved check, then the format check, then the existence check, each
throwing its own message; on success the lowercased alias is the code. -/
def resolveCustomAlias (existing : String → Bool) (a : String) :
    Except String String :=
  if isReserved (jsToLower a) then
    .error "This custom alias is reserved and cannot be used."
  else if !isValidCustomAlias (jsToLower a) then .error "Invalid custom alias format"
  else if existing (jsToLower a) then .error "Custom alias already in use"
  else .ok (jsToLower a)

/-- The code-resolution step of shortenUrl: the custom-alias section when a
non-empty alias is present (JS truthiness), the unique-slug generator
otherwise. -/
def resolveCode (env : Env) (req : ShortenReq) : Except String String :=
  match req.custom_alias with
  | some a => if a = "" then genCode env else resolveCustomAlias env.existing a
  | none => genCode env

/-- The part of shortenUrl up to and including the insert: missing/invalid
URL checks, expiry computation, code resolution, then the insert, whose
error message is re-thrown verbatim; on success, the chosen code, the
normalized URL and the computed expiration. -/
def createRecord (env : Env) (now : DateTime) (req : ShortenReq) :
    Except String (String × String × Option Int) :=
  if req.original_url = "" then .error "Missing original_url"
  else if !isValidUrl (normalizeUrl req.original_url) then .error "Invalid URL format"
  else
    match validateAndComputeExpiry now req.expires_at req.relative_expiry with
    | .error msg => .error msg
    | .ok expiration =>
        match resolveCode env req with
        | .error msg => .error msg
        | .ok short_code =>
            match env.insertError with
            | some msg => .error msg
            | none => .ok (short_code, normalizeUrl req.original_url, expiration)

/-- shortenUrl from index.ts, one run over the given service outcomes: the
pre-insert phases and the insert (createRecord), then the artifact phase:
the QR render (an unguarded await whose failure propagates after the row
was inserted), the upload (error only logged), the public URL construction
and the row patch (error only logged, leaving the row unpatched). -/
def shortenUrl (env : Env) (now : DateTime) (req : ShortenReq) : ShortenOutcome :=
  match createRecord env now req with
  | .error msg => ⟨.error msg, none, false⟩
  | .ok (short_code, url, expiration) =>
      if env.qrRenderFails then
        ⟨.error env.qrErrMsg, some ⟨short_code, url, expiration, 0, none⟩, false⟩
      else
        ⟨.ok ⟨FRONTEND_PUBLIC_URL ++ "/" ++ short_code, publicUrlFor short_code,
            expiration⟩,
          some (if env.updateFails then ⟨short_code, url, expiration, 0, none⟩
            else ⟨short_code, url, expiration, 0, some (publicUrlFor short_code)⟩),
          !env.uploadFails⟩

/-- mapErrorMessageToStatusCode from index.ts: the switch over the known
thrown messages; anything else — including datastore insert errors — is 500. -/
def mapErrorMessageToStatusCode (msg : String) : Nat :=
  if msg = "Missing original_url" ∨ msg = "Invalid URL format" ∨
      msg = "Invalid expires_at format" ∨
      msg = "Expiration time must be in the future" ∨
      msg = "Invalid relative_expiry format" ∨
      msg = "Invalid custom alias format" ∨
      msg = outOfBoundsMsg then 400
  else if msg = "This custom alias is reserved and cannot be used." then 403
  else if msg = "Custom alias already in use" then 409
  else 500

/-- The `POST /shorten` route body: 201 on success, otherwise the status the
thrown message maps to. -/
def postShorten (env : Env) (now : DateTime) (req : ShortenReq) : Nat :=
  match (shortenUrl env now req).result with
  | .ok _ => 201
  | .error msg => mapErrorMessageToStatusCode msg

/-- One element of the `POST /bulk-shorten` results array. -/
structure BulkItem where
  success : Bool
  original_url : String
  short_url : Option String
  qr_code_url : Option String
  expires_at_utc : Option Int
  error : Option String
  error_code : Option Nat
deriving DecidableEq, Repr

/-- The per-entry try/catch body of the bulk loop. -/
def bulkItemOf (env : Env) (now : DateTime) (e : ShortenReq) : BulkItem :=
  match (shortenUrl env now e).result with
  | .ok r => ⟨true, e.original_url, some r.short_url, some r.qr_code_url,
      r.expires_at_utc, none, none⟩
  | .error msg => ⟨false, e.original_url, none, none, none, some msg,
      some (mapErrorMessageToStatusCode msg)⟩

/-- The `POST /bulk-shorten` loop from index.ts: iterate the entries in
order, pushing one result per entry onto the accumulator. -/
def bulkShorten (env : Env) (now : DateTime) (entries : List ShortenReq) :
    List BulkItem :=
  entries.foldl (fun acc e => acc ++ [bulkItemOf env now e]) []

/-! ## The expiry sweeper -/

/-- State touched by a sweep run: the urls table and the artifact store
(a set of object paths in the `qrcodes` bucket). -/
structure SweepState where
  rows : List UrlRow
  artifacts : List String
deriving DecidableEq, Repr

/-- The artifact path of a code, as built both at upload and in the sweep. -/
def qrPath (code : String) : String := "qr/" ++ code ++ ".png"

/-- The cron sweep from index.ts: snapshot `now`, fetch the short codes of
rows with `expires_at < now` (abort on fetch error), and when any matched:
bulk-remove their artifact paths (failure only logged), then — regardless of
that outcome — delete the rows whose short_code is among the matched codes
(failure only logged, leaving the rows for the next tick). -/
def sweepRun (st : SweepState) (now : Int)
    (fetchFails artifactDeleteFails rowDeleteFails : Bool) : SweepState :=
  if fetchFails then st
  else
    let expired := st.rows.filter (fun r => isExpiredAt r now)
    if expired.isEmpty then st
    else
      let codes := expired.map (fun r => r.short_code)
      let arts :=
        if artifactDeleteFails then st.artifacts
        else st.artifacts.filter (fun p => !(codes.map qrPath).contains p)
      let rows :=
        if rowDeleteFails then st.rows
        else st.rows.filter (fun r => !codes.contains r.short_code)
      ⟨rows, arts⟩

/-! ## Helper lemmas -/

/-- Evaluating Char.ofNatAux back to its code point. -/
lemma toNat_ofNatAux (n : Nat) (h : n.isValidChar) :
    (Char.ofNatAux n h).toNat = n := rfl

/-- Lowercasing a character never yields an ASCII uppercase letter. -/
lemma toLower_not_upper (c : Char) :
    (65 ≤ (Char.toLower c).toNat && (Char.toLower c).toNat ≤ 90) = false := by
  simp only [Char.toLower]
  split
  · rename_i h
    have hv : (c.toNat + 32).isValidChar := by
      unfold Nat.isValidChar
      left
      omega
    simp only [Char.ofNat, hv, dif_pos]
    rw [toNat_ofNatAux]
    simp only [Bool.and_eq_false_iff, decide_eq_false_iff_not, not_le]
    omega
  · rename_i h
    simp only [Bool.and_eq_false_iff, decide_eq_false_iff_not, not_le]
    omega

/-- The output of jsToLower contains no ASCII uppercase letter. -/
lemma hasUpperChar_jsToLower (s : String) : hasUpperChar (jsToLower s) = false := by
  simp only [hasUpperChar, jsToLower, List.any_map, List.any_eq_false, Function.comp]
  intro c _
  simp [toLower_not_upper]

/-! ## C1 -/

/-- C1 counterexample: a record whose `expires_at` (instant 0) is strictly
before the current time (instant 1000) is nonetheless returned, data and
all, by the stats lookup `GET /stats/:slug` — the claim that every read
endpoint answers such a record with 404/410 semantics is false. -/
theorem C1_counterexample :
    statsHandler [⟨"abc", "https://example.com", some 0, 0, none⟩] "abc"
        = some ⟨"abc", "https://example.com", some 0, 0, none⟩ ∧
    isExpiredAt ⟨"abc", "https://example.com", some 0, 0, none⟩ 1000 = true := by
  decide

/-- C1 (amended): the lookup operation `GET /:slug` treats an expired record
as gone — it answers with 410 semantics (the expired JSON or the expired
page redirect) and never serves the redirect or the JSON echo of
original_url; the stats lookup `GET /stats/:slug`, however, has no expiry
check and returns the record it finds regardless of expiry. -/
theorem C1_amended (rows : List UrlRow) (slug : String) (now : Int) (api : Bool)
    (r : UrlRow) (h : findByCode rows slug = some r)
    (hx : isExpiredAt r now = true)
    (rows₂ : List UrlRow) (slug₂ : String) (r₂ : UrlRow)
    (h₂ : findByCode rows₂ (jsToLower slug₂) = some r₂) :
    redirectHandler rows slug now api
        = (if api then .expiredJson else .expiredPage) ∧
    statsHandler rows₂ slug₂ = some r₂ := by
  constructor
  · simp [redirectHandler, h, hx]
  · simp [statsHandler, h₂]

/-- C1 witness: the amended theorem at a concrete expired record. -/
theorem C1_witness :
    redirectHandler [⟨"abc", "https://example.com", some 0, 0, none⟩] "abc" 1000 true
        = .expiredJson ∧
    statsHandler [⟨"abc", "https://example.com", some 0, 0, none⟩] "abc"
        = some ⟨"abc", "https://example.com", some 0, 0, none⟩ := by
  exact C1_amended [⟨"abc", "https://example.com", some 0, 0, none⟩] "abc" 1000 true
    ⟨"abc", "https://example.com", some 0, 0, none⟩ (by decide) (by decide)
    [⟨"abc", "https://example.com", some 0, 0, none⟩] "abc"
    ⟨"abc", "https://example.com", some 0, 0, none⟩ (by decide)

/-! ## C10 -/

/-- A successfully generated code is a jsToLower image, hence lowercase. -/
lemma genCode_ok_lower (env : Env) (s : String) (h : genCode env = .ok s) :
    hasUpperChar s = false := by
  unfold genCode at h
  split at h
  · exact absurd h (by simp)
  · injection h with h
    rw [← h]
    exact hasUpperChar_jsToLower _

/-- A successfully resolved custom alias is a jsToLower image, hence
lowercase. -/
lemma resolveCustomAlias_ok_lower (f : String → Bool) (a s : String)
    (h : resolveCustomAlias f a = .ok s) : hasUpperChar s = false := by
  unfold resolveCustomAlias at h
  split at h
  · exact absurd h (by simp)
  · split at h
    · exact absurd h (by simp)
    · split at h
      · exact absurd h (by simp)
      · injection h with h
        rw [← h]
        exact hasUpperChar_jsToLower _

/-- A successfully resolved code, custom or generated, is lowercase. -/
lemma resolveCode_ok_lower (env : Env) (req : ShortenReq) (s : String)
    (h : resolveCode env req = .ok s) : hasUpperChar s = false := by
  unfold resolveCode at h
  split at h
  · rename_i a _
    split at h
    · exact genCode_ok_lower env s h
    · exact resolveCustomAlias_ok_lower env.existing a s h
  · exact genCode_ok_lower env s h

/-- The code of a successfully created record is lowercase. -/
lemma createRecord_ok_lower (env : Env) (now : DateTime) (req : ShortenReq)
    (c u : String) (e : Option Int)
    (h : createRecord env now req = .ok (c, u, e)) : hasUpperChar c = false := by
  unfold createRecord at h
  split at h
  · exact absurd h (by simp)
  · split at h
    · exact absurd h (by simp)
    · split at h
      · exact absurd h (by simp)
      · split at h
        · exact absurd h (by simp)
        · rename_i short_code hres
          split at h
          · exact absurd h (by simp)
          · injection h with h
            simp only [Prod.mk.injEq] at h
            obtain ⟨h1, -⟩ := h
            rw [← h1]
            exact resolveCode_ok_lower env req short_code hres

/-- Any row left in the table by a shortenUrl run has a lowercase code. -/
lemma shortenUrl_inserted_lower (env : Env) (now : DateTime) (req : ShortenReq)
    (row : UrlRow) (h : (shortenUrl env now req).insertedRow = some row) :
    hasUpperChar row.short_code = false := by
  unfold shortenUrl at h
  rcases hcr : createRecord env now req with msg | ⟨short_code, url, expiration⟩
  · simp only [hcr] at h
    exact absurd h (by simp)
  · simp only [hcr] at h
    have hlow := createRecord_ok_lower env now req short_code url expiration hcr
    split at h
    · simp only [Option.some.injEq] at h
      rw [← h]
      exact hlow
    · simp only [Option.some.injEq] at h
      rw [← h]
      split
      · exact hlow
      · exact hlow

/-- C10: every record inserted by the creation path has an all-lowercase
short_code (custom aliases and generated slugs are both lowercased before
insertion); the redirect lookup compares the request slug verbatim, so in a
table of lowercase codes a slug containing an uppercase letter falls into
the not-found branch; the stats lookup lowercases its slug first and so
finds the record whose code is the lowercased slug. -/
theorem C10_case_normalization
    (env : Env) (now : DateTime) (req : ShortenReq) (row : UrlRow)
    (hrow : (shortenUrl env now req).insertedRow = some row)
    (rows : List UrlRow) (slug : String) (now₂ : Int) (api : Bool)
    (hlower : ∀ r ∈ rows, hasUpperChar r.short_code = false)
    (hupper : hasUpperChar slug = true)
    (rows₂ : List UrlRow) (slug₂ : String) (r₂ : UrlRow)
    (h₂ : findByCode rows₂ (jsToLower slug₂) = some r₂) :
    hasUpperChar row.short_code = false ∧
    redirectHandler rows slug now₂ api
        = (if api then .notFoundJson else .notFoundPage) ∧
    statsHandler rows₂ slug₂ = some r₂ := by
  refine ⟨shortenUrl_inserted_lower env now req row hrow, ?_, h₂⟩
  have hfind : findByCode rows slug = none := by
    rw [findByCode, List.find?_eq_none]
    intro r hr
    simp only [beq_iff_eq]
    intro hEq
    rw [← hEq] at hupper
    rw [hlower r hr] at hupper
    exact Bool.false_ne_true hupper
  simp [redirectHandler, hfind]

/-- C10 witness: a generated slug containing uppercase letters is stored
lowercased; an uppercase request slug misses a lowercase table on the
redirect path but hits it through the stats path. -/
theorem C10_witness :
    hasUpperChar
      (⟨"abc1234", "https://example.com", none, 0, some (publicUrlFor "abc1234")⟩ :
        UrlRow).short_code = false ∧
    redirectHandler [⟨"abc", "https://x.com", none, 0, none⟩] "ABC" 5 false
        = .notFoundPage ∧
    statsHandler [⟨"abc", "https://x.com", none, 0, none⟩] "ABC"
        = some ⟨"abc", "https://x.com", none, 0, none⟩ := by
  exact C10_case_normalization
    ⟨fun _ => false, "AbC1234", false, none, false, "boom", false, false⟩
    ⟨2025, 1, 15, 0⟩ ⟨"https://example.com", none, none, none⟩
    ⟨"abc1234", "https://example.com", none, 0, some (publicUrlFor "abc1234")⟩ (by decide)
    [⟨"abc", "https://x.com", none, 0, none⟩] "ABC" 5 false (by decide) (by decide)
    [⟨"abc", "https://x.com", none, 0, none⟩] "ABC"
    ⟨"abc", "https://x.com", none, 0, none⟩ (by decide)

/-! ## C5 -/

/-- C5: a creation request carrying a custom alias runs the reserved check
first, the format check second and the uniqueness check third, each failing
closed with its own error, so the earliest failing check determines the
reported error: a reserved alias reports the reserved error whatever its
format or availability (env₁ arbitrary), a non-reserved ill-formed alias
reports the format error whatever the existence check would say (env₂
arbitrary), and a non-reserved well-formed taken alias reports the
taken error. -/
theorem C5_alias_check_order
    (env₁ env₂ env₃ : Env) (now : DateTime) (u : String)
    (hne : ¬ u = "") (hu : isValidUrl (normalizeUrl u) = true)
    (a₁ a₂ a₃ : String)
    (ha₁ : ¬ a₁ = "") (h₁ : isReserved (jsToLower a₁) = true)
    (ha₂ : ¬ a₂ = "") (h₂r : isReserved (jsToLower a₂) = false)
    (h₂f : isValidCustomAlias (jsToLower a₂) = false)
    (ha₃ : ¬ a₃ = "") (h₃r : isReserved (jsToLower a₃) = false)
    (h₃f : isValidCustomAlias (jsToLower a₃) = true)
    (h₃e : env₃.existing (jsToLower a₃) = true) :
    (shortenUrl env₁ now ⟨u, none, none, some a₁⟩).result
        = .error "This custom alias is reserved and cannot be used." ∧
    (shortenUrl env₂ now ⟨u, none, none, some a₂⟩).result
        = .error "Invalid custom alias format" ∧
    (shortenUrl env₃ now ⟨u, none, none, some a₃⟩).result
        = .error "Custom alias already in use" := by
  refine ⟨?_, ?_, ?_⟩
  · simp [shortenUrl, createRecord, resolveCode, resolveCustomAlias,
      validateAndComputeExpiry, hne, hu, ha₁, h₁]
  · simp [shortenUrl, createRecord, resolveCode, resolveCustomAlias,
      validateAndComputeExpiry, hne, hu, ha₂, h₂r, h₂f]
  · simp [shortenUrl, createRecord, resolveCode, resolveCustomAlias,
      validateAndComputeExpiry, hne, hu, ha₃, h₃r, h₃f, h₃e]

/-- C5 witness: the three scenarios at concrete aliases — reserved `Admin`,
ill-formed `ab`, and well-formed `myalias` already present in the table. -/
theorem C5_witness :
    (shortenUrl ⟨fun _ => false, "slug123", false, none, false, "boom", false, false⟩
        ⟨2025, 1, 15, 0⟩ ⟨"https://example.com", none, none, some "Admin"⟩).result
        = .error "This custom alias is reserved and cannot be used." ∧
    (shortenUrl ⟨fun _ => false, "slug123", false, none, false, "boom", false, false⟩
        ⟨2025, 1, 15, 0⟩ ⟨"https://example.com", none, none, some "ab"⟩).result
        = .error "Invalid custom alias format" ∧
    (shortenUrl ⟨fun _ => true, "slug123", false, none, false, "boom", false, false⟩
        ⟨2025, 1, 15, 0⟩ ⟨"https://example.com", none, none, some "myalias"⟩).result
        = .error "Custom alias already in use" := by
  exact C5_alias_check_order
    ⟨fun _ => false, "slug123", false, none, false, "boom", false, false⟩
    ⟨fun _ => false, "slug123", false, none, false, "boom", false, false⟩
    ⟨fun _ => true, "slug123", false, none, false, "boom", false, false⟩
    ⟨2025, 1, 15, 0⟩ "https://example.com" (by decide) (by decide)
    "Admin" "ab" "myalias"
    (by decide) (by decide) (by decide) (by decide) (by decide)
    (by decide) (by decide) (by decide) (by decide)

/-! ## C2 -/

/-- The thrown messages the route switch recognizes; everything else maps
to 500. -/
def knownMessages : List String :=
  ["Missing original_url", "Invalid URL format", "Invalid expires_at format",
    "Expiration time must be in the future", "Invalid relative_expiry format",
    "Invalid custom alias format", outOfBoundsMsg,
    "This custom alias is reserved and cannot be used.",
    "Custom alias already in use"]

/-- A message outside the switch falls to the default 500 arm. -/
lemma unmapped_is_500 (m : String) (hm : ¬ m ∈ knownMessages) :
    mapErrorMessageToStatusCode m = 500 := by
  simp only [knownMessages, List.mem_cons, List.not_mem_nil, or_false, not_or] at hm
  obtain ⟨h1, h2, h3, h4, h5, h6, h7, h8, h9⟩ := hm
  simp [mapErrorMessageToStatusCode, h1, h2, h3, h4, h5, h6, h7, h8, h9]

/-- C2 counterexample: a custom alias passes the pre-insert existence check
(no record holds it at check time), the insert then loses the race and
fails with the unique-constraint message — and the creation surfaces HTTP
500, not AliasTaken (409) and not a retry. -/
theorem C2_counterexample :
    postShorten
      ⟨fun _ => false, "slug123", false,
        some "duplicate key value violates unique constraint \"urls_short_code_key\"",
        false, "boom", false, false⟩
      ⟨2025, 1, 15, 0⟩ ⟨"https://example.com", none, none, some "myalias"⟩ = 500 := by
  decide

/-- C2 (amended): when the insert fails — the unique-constraint backstop of
the non-atomic check-then-insert included — shortenUrl re-throws the
datastore message verbatim, with no regenerate-and-retry for generated
codes and no AliasTaken mapping for custom aliases; since such a message is
not one of the mapped validation strings, the route answers 500.  AliasTaken
(409) arises only from the pre-insert existence check. -/
theorem C2_amended
    (env₁ : Env) (now : DateTime) (u a m₁ : String)
    (hne : ¬ u = "") (hu : isValidUrl (normalizeUrl u) = true)
    (ha : ¬ a = "") (hr : isReserved (jsToLower a) = false)
    (hf : isValidCustomAlias (jsToLower a) = true)
    (he : env₁.existing (jsToLower a) = false)
    (hins : env₁.insertError = some m₁) (hm : ¬ m₁ ∈ knownMessages)
    (env₂ : Env) (m₂ : String) (hg : env₂.genFails = false)
    (hins₂ : env₂.insertError = some m₂) (hm₂ : ¬ m₂ ∈ knownMessages) :
    (shortenUrl env₁ now ⟨u, none, none, some a⟩).result = .error m₁ ∧
    postShorten env₁ now ⟨u, none, none, some a⟩ = 500 ∧
    (shortenUrl env₂ now ⟨u, none, none, none⟩).result = .error m₂ ∧
    postShorten env₂ now ⟨u, none, none, none⟩ = 500 := by
  have e₁ : (shortenUrl env₁ now ⟨u, none, none, some a⟩).result = .error m₁ := by
    simp [shortenUrl, createRecord, resolveCode, resolveCustomAlias,
      validateAndComputeExpiry, hne, hu, ha, hr, hf, he, hins]
  have e₂ : (shortenUrl env₂ now ⟨u, none, none, none⟩).result = .error m₂ := by
    simp [shortenUrl, createRecord, resolveCode, genCode,
      validateAndComputeExpiry, hne, hu, hg, hins₂]
  refine ⟨e₁, ?_, e₂, ?_⟩
  · rw [postShorten, e₁]
    exact unmapped_is_500 m₁ hm
  · rw [postShorten, e₂]
    exact unmapped_is_500 m₂ hm₂

/-- C2 witness: the amended theorem at the concrete duplicate-key message,
for both the custom-alias path and the generated path. -/
theorem C2_witness :
    (shortenUrl
        ⟨fun _ => false, "slug123", false,
          some "duplicate key value violates unique constraint \"urls_short_code_key\"",
          false, "boom", false, false⟩
        ⟨2025, 1, 15, 0⟩ ⟨"https://example.com", none, none, some "myalias"⟩).result
      = .error "duplicate key value violates unique constraint \"urls_short_code_key\"" ∧
    postShorten
        ⟨fun _ => false, "slug123", false,
          some "duplicate key value violates unique constraint \"urls_short_code_key\"",
          false, "boom", false, false⟩
        ⟨2025, 1, 15, 0⟩ ⟨"https://example.com", none, none, some "myalias"⟩ = 500 ∧
    (shortenUrl
        ⟨fun _ => false, "slug123", false,
          some "duplicate key value violates unique constraint \"urls_short_code_key\"",
          false, "boom", false, false⟩
        ⟨2025, 1, 15, 0⟩ ⟨"https://example.com", none, none, none⟩).result
      = .error "duplicate key value violates unique constraint \"urls_short_code_key\"" ∧
    postShorten
        ⟨fun _ => false, "slug123", false,
          some "duplicate key value violates unique constraint \"urls_short_code_key\"",
          false, "boom", false, false⟩
        ⟨2025, 1, 15, 0⟩ ⟨"https://example.com", none, none, none⟩ = 500 := by
  exact C2_amended
    ⟨fun _ => false, "slug123", false,
      some "duplicate key value violates unique constraint \"urls_short_code_key\"",
      false, "boom", false, false⟩
    ⟨2025, 1, 15, 0⟩ "https://example.com" "myalias"
    "duplicate key value violates unique constraint \"urls_short_code_key\""
    (by decide) (by decide) (by decide) (by decide) (by decide) (by decide)
    (by decide) (by decide)
    ⟨fun _ => false, "slug123", false,
      some "duplicate key value violates unique constraint \"urls_short_code_key\"",
      false, "boom", false, false⟩
    "duplicate key value violates unique constraint \"urls_short_code_key\""
    (by decide) (by decide) (by decide)

/-! ## C4 -/

/-- C4 counterexample: when the QR render throws, the record has already
been inserted yet the creation response is 500, not a logged-and-ignored
failure with a 201 — the render is not best-effort. -/
theorem C4_counterexample :
    postShorten
        ⟨fun _ => false, "slug123", false, none, true, "QR render failed",
          false, false⟩
        ⟨2025, 1, 15, 0⟩ ⟨"https://example.com", none, none, none⟩ = 500 ∧
    (shortenUrl
        ⟨fun _ => false, "slug123", false, none, true, "QR render failed",
          false, false⟩
        ⟨2025, 1, 15, 0⟩ ⟨"https://example.com", none, none, none⟩).insertedRow
      = some ⟨"slug123", "https://example.com", none, 0, none⟩ := by
  decide

/-- C4 (amended): of the three side-artifact steps only the store write and
the record patch are best-effort — with the render succeeding, the creation
returns 201 whatever the upload and patch outcomes (env₁ is arbitrary in
both), and the response then carries the constructed public artifact URL
rather than leaving the reference absent; a render failure, by contrast,
propagates as a thrown error after the insert and surfaces as a non-201
response. -/
theorem C4_amended
    (env₁ : Env) (now : DateTime) (u : String)
    (hne : ¬ u = "") (hu : isValidUrl (normalizeUrl u) = true)
    (hg : env₁.genFails = false) (hins : env₁.insertError = none)
    (hq : env₁.qrRenderFails = false)
    (env₂ : Env) (hg₂ : env₂.genFails = false) (hins₂ : env₂.insertError = none)
    (hq₂ : env₂.qrRenderFails = true) :
    (shortenUrl env₁ now ⟨u, none, none, none⟩).result
        = .ok ⟨FRONTEND_PUBLIC_URL ++ "/" ++ jsToLower env₁.genSlug,
            publicUrlFor (jsToLower env₁.genSlug), none⟩ ∧
    postShorten env₁ now ⟨u, none, none, none⟩ = 201 ∧
    (shortenUrl env₂ now ⟨u, none, none, none⟩).result = .error env₂.qrErrMsg ∧
    (shortenUrl env₂ now ⟨u, none, none, none⟩).insertedRow
        = some ⟨jsToLower env₂.genSlug, normalizeUrl u, none, 0, none⟩ := by
  have e₁ : (shortenUrl env₁ now ⟨u, none, none, none⟩).result
      = .ok ⟨FRONTEND_PUBLIC_URL ++ "/" ++ jsToLower env₁.genSlug,
          publicUrlFor (jsToLower env₁.genSlug), none⟩ := by
    simp [shortenUrl, createRecord, resolveCode, genCode,
      validateAndComputeExpiry, hne, hu, hg, hins, hq]
  refine ⟨e₁, ?_, ?_, ?_⟩
  · rw [postShorten, e₁]
  · simp [shortenUrl, createRecord, resolveCode, genCode,
      validateAndComputeExpiry, hne, hu, hg₂, hins₂, hq₂]
  · simp [shortenUrl, createRecord, resolveCode, genCode,
      validateAndComputeExpiry, hne, hu, hg₂, hins₂, hq₂]

/-- C4 witness: the amended theorem with both the upload and the patch
failing in the success scenario, and a concrete render failure in the other. -/
theorem C4_witness :
    (shortenUrl ⟨fun _ => false, "slug123", false, none, false, "boom", true, true⟩
        ⟨2025, 1, 15, 0⟩ ⟨"https://example.com", none, none, none⟩).result
      = .ok ⟨FRONTEND_PUBLIC_URL ++ "/" ++ jsToLower "slug123",
          publicUrlFor (jsToLower "slug123"), none⟩ ∧
    postShorten ⟨fun _ => false, "slug123", false, none, false, "boom", true, true⟩
        ⟨2025, 1, 15, 0⟩ ⟨"https://example.com", none, none, none⟩ = 201 ∧
    (shortenUrl ⟨fun _ => false, "slug123", false, none, true, "QR render failed",
        false, false⟩
        ⟨2025, 1, 15, 0⟩ ⟨"https://example.com", none, none, none⟩).result
      = .error (Env.qrErrMsg ⟨fun _ => false, "slug123", false, none, true,
          "QR render failed", false, false⟩) ∧
    (shortenUrl ⟨fun _ => false, "slug123", false, none, true, "QR render failed",
        false, false⟩
        ⟨2025, 1, 15, 0⟩ ⟨"https://example.com", none, none, none⟩).insertedRow
      = some ⟨jsToLower "slug123", normalizeUrl "https://example.com", none, 0, none⟩ := by
  exact C4_amended
    ⟨fun _ => false, "slug123", false, none, false, "boom", true, true⟩
    ⟨2025, 1, 15, 0⟩ "https://example.com" (by decide) (by decide)
    (by decide) (by decide) (by decide)
    ⟨fun _ => false, "slug123", false, none, true, "QR render failed", false, false⟩
    (by decide) (by decide) (by decide)

/-! ## C9 -/

/-- Pushing one mapped element per step onto an accumulator is mapping. -/
lemma foldl_append_map {α β : Type} (f : α → β) :
    ∀ (l : List α) (acc : List β),
      l.foldl (fun a e => a ++ [f e]) acc = acc ++ l.map f := by
  intro l
  induction l with
  | nil => intro acc; simp
  | cons e tl ih => intro acc; simp [ih]

/-- C9: the bulk loop is an independent per-item map — the results form a
parallel array in input order, each element the success record or the
per-item error record of its own entry, so a failing middle item leaves its
siblings untouched: `[validURL, not-a-url, validURL]` yields success,
`error_code` 400, success. -/
theorem C9_bulk_independent
    (env : Env) (now : DateTime) (entries : List ShortenReq) (u₁ u₃ : String)
    (h₁ : ¬ u₁ = "") (hu₁ : isValidUrl (normalizeUrl u₁) = true)
    (h₃ : ¬ u₃ = "") (hu₃ : isValidUrl (normalizeUrl u₃) = true)
    (hg : env.genFails = false) (hins : env.insertError = none)
    (hq : env.qrRenderFails = false) :
    bulkShorten env now entries = entries.map (bulkItemOf env now) ∧
    (bulkShorten env now
        [⟨u₁, none, none, none⟩, ⟨"not a url", none, none, none⟩,
          ⟨u₃, none, none, none⟩]).map (fun b => (b.success, b.error_code))
      = [(true, none), (false, some 400), (true, none)] := by
  have hmap : ∀ es : List ShortenReq,
      bulkShorten env now es = es.map (bulkItemOf env now) := by
    intro es
    simpa [bulkShorten] using foldl_append_map (bulkItemOf env now) es []
  have r₁ : (shortenUrl env now ⟨u₁, none, none, none⟩).result
      = .ok ⟨FRONTEND_PUBLIC_URL ++ "/" ++ jsToLower env.genSlug,
          publicUrlFor (jsToLower env.genSlug), none⟩ := by
    simp [shortenUrl, createRecord, resolveCode, genCode, validateAndComputeExpiry,
      h₁, hu₁, hg, hins, hq]
  have r₃ : (shortenUrl env now ⟨u₃, none, none, none⟩).result
      = .ok ⟨FRONTEND_PUBLIC_URL ++ "/" ++ jsToLower env.genSlug,
          publicUrlFor (jsToLower env.genSlug), none⟩ := by
    simp [shortenUrl, createRecord, resolveCode, genCode, validateAndComputeExpiry,
      h₃, hu₃, hg, hins, hq]
  have hbadUrl : isValidUrl (normalizeUrl "not a url") = false := by decide
  have hbadNe : ¬ ("not a url" : String) = "" := by decide
  have rBad : (shortenUrl env now ⟨"not a url", none, none, none⟩).result
      = .error "Invalid URL format" := by
    simp [shortenUrl, createRecord, hbadNe, hbadUrl]
  have h400 : mapErrorMessageToStatusCode "Invalid URL format" = 400 := by decide
  refine ⟨hmap entries, ?_⟩
  rw [hmap]
  simp [bulkItemOf, r₁, r₃, rBad, h400]

/-- C9 witness: the bulk example at concrete URLs and a concrete
environment. -/
theorem C9_witness :
    bulkShorten ⟨fun _ => false, "slug123", false, none, false, "boom", false, false⟩
        ⟨2025, 1, 15, 0⟩ [⟨"https://example.com", none, none, some "myalias"⟩]
      = [⟨"https://example.com", none, none, some "myalias"⟩].map
          (bulkItemOf ⟨fun _ => false, "slug123", false, none, false, "boom",
            false, false⟩ ⟨2025, 1, 15, 0⟩) ∧
    (bulkShorten ⟨fun _ => false, "slug123", false, none, false, "boom", false, false⟩
        ⟨2025, 1, 15, 0⟩
        [⟨"https://example.com", none, none, none⟩, ⟨"not a url", none, none, none⟩,
          ⟨"https://example.org", none, none, none⟩]).map
        (fun b => (b.success, b.error_code))
      = [(true, none), (false, some 400), (true, none)] := by
  exact C9_bulk_independent
    ⟨fun _ => false, "slug123", false, none, false, "boom", false, false⟩
    ⟨2025, 1, 15, 0⟩ [⟨"https://example.com", none, none, some "myalias"⟩]
    "https://example.com" "https://example.org"
    (by decide) (by decide) (by decide) (by decide) (by decide) (by decide)
    (by decide)

/-! ## C6 -/

/-- C6: with the fetch and the row deletion succeeding, a sweep run deletes
from the table exactly the rows whose expires_at is strictly before the
snapshot time `now` — whatever happened to the artifact deletion
(`adf` is arbitrary) — and every artifact not belonging to an expired row
survives the run.  The injectivity hypothesis is the unique constraint on
short_code. -/
theorem C6_sweep_exact (st : SweepState) (now : Int) (adf : Bool)
    (hinj : ∀ r₁ ∈ st.rows, ∀ r₂ ∈ st.rows, r₁.short_code = r₂.short_code → r₁ = r₂) :
    (sweepRun st now false adf false).rows
        = st.rows.filter (fun r => !isExpiredAt r now) ∧
    ∀ p ∈ st.artifacts,
      (∀ r ∈ st.rows, isExpiredAt r now = true → ¬ p = qrPath r.short_code) →
      p ∈ (sweepRun st now false adf false).artifacts := by
  by_cases hemp : (st.rows.filter (fun r => isExpiredAt r now)).isEmpty = true
  · have hnone : ∀ r ∈ st.rows, ¬ isExpiredAt r now = true := by
      rw [List.isEmpty_iff, List.filter_eq_nil_iff] at hemp
      exact hemp
    constructor
    · rw [sweepRun]
      simp only [if_neg (by simp : ¬ (false = true)), hemp, if_pos]
      rw [eq_comm, List.filter_eq_self]
      intro r hr
      simp [hnone r hr]
    · intro p hp _
      rw [sweepRun]
      simp only [if_neg (by simp : ¬ (false = true)), hemp, if_pos]
      exact hp
  · have hcontains : ∀ r ∈ st.rows,
        (((st.rows.filter (fun r => isExpiredAt r now)).map
          (fun r => r.short_code)).contains r.short_code) = isExpiredAt r now := by
      intro r hr
      by_cases hex : isExpiredAt r now = true
      · rw [hex]
        rw [List.elem_iff]
        exact List.mem_map.mpr ⟨r, List.mem_filter.mpr ⟨hr, hex⟩, rfl⟩
      · cases hc : (((st.rows.filter (fun r => isExpiredAt r now)).map
            (fun r => r.short_code)).contains r.short_code) with
        | false => simp [Bool.not_eq_true] at hex; rw [hex]
        | true =>
            exfalso
            rw [List.elem_iff] at hc
            obtain ⟨e, he, hcode⟩ := List.mem_map.mp hc
            obtain ⟨heMem, heExp⟩ := List.mem_filter.mp he
            rw [hinj e heMem r hr hcode] at heExp
            exact hex heExp
    constructor
    · rw [sweepRun]
      simp only [if_neg (by simp : ¬ (false = true)), hemp, if_neg, if_false]
      refine List.filter_congr ?_
      intro r hr
      rw [hcontains r hr]
    · intro p hp hsafe
      rw [sweepRun]
      simp only [if_neg (by simp : ¬ (false = true)), hemp, if_neg, if_false]
      cases adf with
      | true => simpa using hp
      | false =>
          simp only [if_neg (by simp : ¬ (false = true))]
          refine List.mem_filter.mpr ⟨hp, ?_⟩
          simp only [Bool.not_eq_eq_eq_not, Bool.not_true]
          cases hc : (((st.rows.filter (fun r => isExpiredAt r now)).map
              (fun r => r.short_code)).map qrPath).contains p with
          | false => rfl
          | true =>
              exfalso
              rw [List.elem_iff] at hc
              obtain ⟨code, hcode, hqp⟩ := List.mem_map.mp hc
              obtain ⟨e, he, hec⟩ := List.mem_map.mp hcode
              obtain ⟨heMem, heExp⟩ := List.mem_filter.mp he
              refine hsafe e heMem heExp ?_
              rw [← hqp, hec]

/-- C6 witness: a sweep over three expired rows and one live row (artifact
deletion failing, `adf = true`) still deletes exactly the expired rows;
the live artifact survives. -/
theorem C6_witness :
    (sweepRun ⟨[⟨"a", "u", some 5, 0, none⟩, ⟨"b", "u", some 7, 0, none⟩,
        ⟨"c", "u", some 9, 0, none⟩, ⟨"d", "u", some 99, 0, none⟩],
        [qrPath "a", qrPath "d"]⟩ 10 false true false).rows
      = [⟨"a", "u", some 5, 0, none⟩, ⟨"b", "u", some 7, 0, none⟩,
          ⟨"c", "u", some 9, 0, none⟩, ⟨"d", "u", some 99, 0, none⟩].filter
          (fun r => !isExpiredAt r 10) ∧
    qrPath "d" ∈ (sweepRun ⟨[⟨"a", "u", some 5, 0, none⟩, ⟨"b", "u", some 7, 0, none⟩,
        ⟨"c", "u", some 9, 0, none⟩, ⟨"d", "u", some 99, 0, none⟩],
        [qrPath "a", qrPath "d"]⟩ 10 false true false).artifacts := by
  have h := C6_sweep_exact ⟨[⟨"a", "u", some 5, 0, none⟩, ⟨"b", "u", some 7, 0, none⟩,
      ⟨"c", "u", some 9, 0, none⟩, ⟨"d", "u", some 99, 0, none⟩],
      [qrPath "a", qrPath "d"]⟩ 10 true (by decide)
  exact ⟨h.1, h.2 (qrPath "d") (by decide) (by decide)⟩

/-! ## C7 -/

/-- C7 counterexample: after 20 requests at instant 0 the window expires at
instant 60; the 21st request arrives at instant 30, so 30 seconds of the
window remain — yet the rejection advertises RATE_LIMIT_WINDOW (the full 60
seconds), not the remaining time. -/
theorem C7_counterexample :
    (runLimiter (List.replicate 20 0 ++ [30]) none).1.getLast?
        = some (.limited RATE_LIMIT_WINDOW) ∧
    (runLimiter (List.replicate 20 0) none).2 = some (20, some 60) ∧
    ¬ RATE_LIMIT_WINDOW = 60 - 30 := by
  decide

/-- C7 (amended): within a live window, any request beyond
MAX_REQUESTS_PER_WINDOW (20) is rejected with a retry-after hint equal to
the full configured window (RATE_LIMIT_WINDOW, 60 seconds) regardless of
the remaining time; a request within the threshold is admitted; and once
the TTL of the window has elapsed the counter restarts at 1, so the same
client is admitted again with a fresh window.  Concretely, 20 requests at
instant 0 are all admitted and the 21st at instant 30 is rejected with the
constant hint. -/
theorem C7_amended
    (c : Nat) (e now : Int) (hlive : now < e)
    (hover : MAX_REQUESTS_PER_WINDOW < c + 1)
    (c₂ : Nat) (e₂ now₂ : Int) (hc₂ : 1 ≤ c₂) (hlive₂ : now₂ < e₂)
    (hunder : c₂ + 1 ≤ MAX_REQUESTS_PER_WINDOW)
    (c₃ : Nat) (e₃ now₃ : Int) (hreset : e₃ ≤ now₃) :
    rateLimiter (some (c, some e)) now .ok
        = (.limited RATE_LIMIT_WINDOW, some (c + 1, some e), false) ∧
    rateLimiter (some (c₂, some e₂)) now₂ .ok
        = (.allowed, some (c₂ + 1, some e₂), false) ∧
    rateLimiter (some (c₃, some e₃)) now₃ .ok
        = (.allowed, some (1, some (now₃ + RATE_LIMIT_WINDOW)), false) ∧
    (runLimiter (List.replicate 20 0 ++ [30]) none).1
        = List.replicate 20 .allowed ++ [.limited RATE_LIMIT_WINDOW] := by
  have hover20 : 20 < c + 1 := hover
  have hunder20 : c₂ + 1 ≤ 20 := hunder
  refine ⟨?_, ?_, ?_, by decide⟩
  · have hl : liveVal (some (c, some e)) now = some (c, some e) := by
      simp [liveVal, not_le.mpr hlive]
    have hi : redisIncr (some (c, some e)) now = (c + 1, some (c + 1, some e)) := by
      simp [redisIncr, hl]
    simp [rateLimiter, hi, MAX_REQUESTS_PER_WINDOW]
    rw [if_pos hover20, if_neg (by omega : ¬ c = 0)]
  · have hl : liveVal (some (c₂, some e₂)) now₂ = some (c₂, some e₂) := by
      simp [liveVal, not_le.mpr hlive₂]
    have hi : redisIncr (some (c₂, some e₂)) now₂ = (c₂ + 1, some (c₂ + 1, some e₂)) := by
      simp [redisIncr, hl]
    simp [rateLimiter, hi, MAX_REQUESTS_PER_WINDOW]
    rw [if_neg (by omega : ¬ 20 < c₂ + 1), if_neg (by omega : ¬ c₂ = 0)]
  · have hl : liveVal (some (c₃, some e₃)) now₃ = none := by
      simp [liveVal, hreset]
    have hi : redisIncr (some (c₃, some e₃)) now₃ = (1, some (1, none)) := by
      simp [redisIncr, hl]
    simp [rateLimiter, hi, MAX_REQUESTS_PER_WINDOW, redisExpire, liveVal]

/-- C7 witness: the amended theorem at a window holding 20 requests with 30
seconds remaining, a window holding 5, and an elapsed window. -/
theorem C7_witness :
    rateLimiter (some (20, some 60)) 30 .ok
        = (.limited RATE_LIMIT_WINDOW, some (21, some 60), false) ∧
    rateLimiter (some (5, some 60)) 30 .ok
        = (.allowed, some (6, some 60), false) ∧
    rateLimiter (some (20, some 60)) 60 .ok
        = (.allowed, some (1, some (60 + RATE_LIMIT_WINDOW)), false) ∧
    (runLimiter (List.replicate 20 0 ++ [30]) none).1
        = List.replicate 20 .allowed ++ [.limited RATE_LIMIT_WINDOW] := by
  exact C7_amended 20 60 30 (by decide) (by decide)
    5 60 30 (by decide) (by decide) (by decide) 20 60 60 (by decide)

/-! ## C8 -/

/-- C8: whenever a counter-store call throws during the rate limiter (the
logged-error component of the outcome), the request is admitted — the
limiter fails open and its own infrastructure failure never becomes an
error response. -/
theorem C8_fail_open (st : RedisState) (now : Int) (f : RedisFailure)
    (hlog : (rateLimiter st now f).2.2 = true) :
    (rateLimiter st now f).1 = .allowed := by
  rcases hri : redisIncr st now with ⟨cnt, st1⟩
  cases f with
  | onIncr => rfl
  | ok =>
      exfalso
      simp only [rateLimiter, hri] at hlog
      split at hlog
      · exact Bool.false_ne_true hlog
      · exact Bool.false_ne_true hlog
  | onExpire =>
      simp only [rateLimiter, hri] at hlog ⊢
      split at hlog
      · rename_i h1
        simp [h1]
      · split at hlog
        · exact absurd hlog (by simp)
        · exact absurd hlog (by simp)

/-- C8 witness: an INCR failure on a loaded window still admits the
request. -/
theorem C8_witness : (rateLimiter (some (20, some 60)) 30 .onIncr).1 = .allowed := by
  exact C8_fail_open (some (20, some 60)) 30 .onIncr (by decide)

/-! ## C3 -/

/-- The fields of addMonths, characterized by the linear month equation
instead of the division that computes them. -/
lemma addMonths_spec (dt : DateTime) (n : Int) :
    ∃ y' m', addMonths dt n = ⟨y', m', min dt.day (daysInMonth y' m'), dt.msOfDay⟩ ∧
      12 * y' + ((m' : Int) - 1) = 12 * dt.year + ((dt.month : Int) - 1) + n ∧
      1 ≤ m' ∧ m' ≤ 12 := by
  refine ⟨(12 * dt.year + ((dt.month : Int) - 1) + n) / 12,
    ((12 * dt.year + ((dt.month : Int) - 1) + n) % 12).toNat + 1, rfl, ?_, ?_, ?_⟩
  · omega
  · omega
  · omega

set_option maxHeartbeats 4000000 in
/-- Four calendar months ahead of any real date lies at least 91 civil days
ahead (in fact at least 117: four consecutive months span at least 120 days
and day-of-month clamping costs at most 3). -/
lemma toDays_addMonths4 (dt : DateTime) (h : ValidDate dt) :
    91 ≤ toDays (addMonths dt 4) - toDays dt := by
  obtain ⟨y', m', heq, hlin, hm1, hm2⟩ := addMonths_spec dt 4
  rw [heq]
  rcases dt with ⟨y, m, d, ms⟩
  obtain ⟨h1, h2, h3, h4, h5⟩ := h
  simp only at hlin
  simp only [daysInMonth, isLeap] at h4
  rcases le_total d (daysInMonth y' m') with hcl | hcl
  · rw [min_eq_left hcl]
    simp only [daysInMonth, isLeap] at hcl
    simp only [toDays, daysInMonth, isLeap]
    simp only [Bool.and_eq_true, Bool.or_eq_true, decide_eq_true_eq, bne_iff_ne,
      ne_eq] at *
    split_ifs at h4 hcl ⊢ <;> omega
  · rw [min_eq_right hcl]
    simp only [daysInMonth, isLeap] at hcl
    simp only [toDays, daysInMonth, isLeap]
    simp only [Bool.and_eq_true, Bool.or_eq_true, decide_eq_true_eq, bne_iff_ne,
      ne_eq] at *
    split_ifs at h4 hcl ⊢ <;> omega

/-- The shared bound check errors with outOfBoundsMsg exactly when the
duration from now to the candidate instant leaves `[1 hour, 90 days]`. -/
lemma boundCheck_error_iff (now : DateTime) (t : Int) :
    validateAndComputeExpiry.boundCheck now t = .error outOfBoundsMsg
      ↔ (t - toMs now < MIN_EXPIRY_MS ∨ MAX_EXPIRY_MS < t - toMs now) := by
  unfold validateAndComputeExpiry.boundCheck
  split_ifs with hcond
  · simp only [Bool.or_eq_true, decide_eq_true_eq, gt_iff_lt] at hcond
    simp [hcond]
  · simp only [Bool.or_eq_true, decide_eq_true_eq, gt_iff_lt, not_or, not_lt] at hcond
    constructor
    · intro hcontra
      exact absurd hcontra (by simp)
    · intro hor
      exfalso
      omega

/-- Unfolding equation of validateAndComputeExpiry on a parsed absolute
expiry. -/
lemma vace_utc (now : DateTime) (t : Int) :
    validateAndComputeExpiry now (some (.utc t)) none
      = if t ≤ toMs now then .error "Expiration time must be in the future"
        else validateAndComputeExpiry.boundCheck now t := rfl

/-- Unfolding equation of validateAndComputeExpiry on a relative expiry. -/
lemma vace_rel (now : DateTime) (count : Int) (unit : String) :
    validateAndComputeExpiry now none (some ⟨count, unit⟩)
      = if !validUnits.contains unit then .error "Invalid relative_expiry format"
        else validateAndComputeExpiry.boundCheck now (dateFnsAddMs now count unit) :=
  rfl

/-- A relative expiry with a recognized unit goes straight to the shared
bound check on the instant date-fns addition produces. -/
lemma relative_reduces (now : DateTime) (count : Int) (unit : String)
    (hu : validUnits.contains unit = true) :
    validateAndComputeExpiry now none (some ⟨count, unit⟩)
      = validateAndComputeExpiry.boundCheck now (dateFnsAddMs now count unit) := by
  rw [vace_rel, hu]
  rfl

/-- C3: given a parseable future absolute expiry or a recognized relative
unit, the computation fails with the out-of-bounds error exactly when the
duration from now to the computed expiry leaves `[1 hour, 3 months]`
(MIN_EXPIRY_MS to MAX_EXPIRY_MS), through one shared check for both forms;
in particular 30 minutes falls below the minimum, 4 calendar months always
exceeds the 90-day maximum, and 2 days is accepted. -/
theorem C3_expiry_bounds
    (now : DateTime) (hnow : ValidDate now) (t : Int) (ht : toMs now < t)
    (count : Int) (unit : String) (hu : unit ∈ validUnits) :
    (validateAndComputeExpiry now (some (.utc t)) none = .error outOfBoundsMsg
      ↔ (t - toMs now < MIN_EXPIRY_MS ∨ MAX_EXPIRY_MS < t - toMs now)) ∧
    (validateAndComputeExpiry now none (some ⟨count, unit⟩) = .error outOfBoundsMsg
      ↔ (dateFnsAddMs now count unit - toMs now < MIN_EXPIRY_MS ∨
          MAX_EXPIRY_MS < dateFnsAddMs now count unit - toMs now)) ∧
    validateAndComputeExpiry now none (some ⟨30, "minutes"⟩)
      = .error outOfBoundsMsg ∧
    validateAndComputeExpiry now none (some ⟨4, "months"⟩)
      = .error outOfBoundsMsg ∧
    (∃ e, validateAndComputeExpiry now none (some ⟨2, "days"⟩) = .ok (some e)) := by
  have hcu : validUnits.contains unit = true := List.elem_iff.mpr hu
  refine ⟨?_, ?_, ?_, ?_, ?_⟩
  · rw [vace_utc, if_neg (not_le.mpr ht), boundCheck_error_iff]
  · rw [relative_reduces now count unit hcu, boundCheck_error_iff]
  · rw [relative_reduces now 30 "minutes" (by decide), boundCheck_error_iff]
    refine Or.inl ?_
    have h30 : dateFnsAddMs now 30 "minutes" = toMs now + 30 * 60000 := rfl
    rw [h30, MIN_EXPIRY_MS]
    omega
  · rw [relative_reduces now 4 "months" (by decide), boundCheck_error_iff]
    refine Or.inr ?_
    have h4m : dateFnsAddMs now 4 "months" = toMs (addMonths now 4) := rfl
    have hdays := toDays_addMonths4 now hnow
    have hms : (addMonths now 4).msOfDay = now.msOfDay := rfl
    rw [h4m, toMs, toMs, hms, MAX_EXPIRY_MS]
    omega
  · refine ⟨dateFnsAddMs now 2 "days", ?_⟩
    rw [relative_reduces now 2 "days" (by decide)]
    unfold validateAndComputeExpiry.boundCheck
    have h2d : dateFnsAddMs now 2 "days" = toMs now + 2 * 86400000 := rfl
    have hside : ¬ ((decide (dateFnsAddMs now 2 "days" - toMs now < MIN_EXPIRY_MS) ||
        decide (dateFnsAddMs now 2 "days" - toMs now > MAX_EXPIRY_MS)) = true) := by
      simp only [h2d, Bool.or_eq_true, decide_eq_true_eq, not_or, not_lt,
        MIN_EXPIRY_MS, MAX_EXPIRY_MS, gt_iff_lt]
      omega
    rw [if_neg hside]

/-- C3 witness: the bounds at a concrete date — a two-hour absolute expiry
is accepted on both sides of the biconditional, a five-minute relative unit
check instantiates the relative biconditional, and the three examples are
evaluated. -/
theorem C3_witness :
    (validateAndComputeExpiry ⟨2025, 1, 15, 0⟩
        (some (.utc (toMs ⟨2025, 1, 15, 0⟩ + 7200000))) none = .error outOfBoundsMsg
      ↔ (toMs ⟨2025, 1, 15, 0⟩ + 7200000 - toMs ⟨2025, 1, 15, 0⟩ < MIN_EXPIRY_MS ∨
          MAX_EXPIRY_MS < toMs ⟨2025, 1, 15, 0⟩ + 7200000 - toMs ⟨2025, 1, 15, 0⟩)) ∧
    (validateAndComputeExpiry ⟨2025, 1, 15, 0⟩ none (some ⟨5, "minutes"⟩)
        = .error outOfBoundsMsg
      ↔ (dateFnsAddMs ⟨2025, 1, 15, 0⟩ 5 "minutes" - toMs ⟨2025, 1, 15, 0⟩
            < MIN_EXPIRY_MS ∨
          MAX_EXPIRY_MS < dateFnsAddMs ⟨2025, 1, 15, 0⟩ 5 "minutes"
            - toMs ⟨2025, 1, 15, 0⟩)) ∧
    validateAndComputeExpiry ⟨2025, 1, 15, 0⟩ none (some ⟨30, "minutes"⟩)
      = .error outOfBoundsMsg ∧
    validateAndComputeExpiry ⟨2025, 1, 15, 0⟩ none (some ⟨4, "months"⟩)
      = .error outOfBoundsMsg ∧
    (∃ e, validateAndComputeExpiry ⟨2025, 1, 15, 0⟩ none (some ⟨2, "days"⟩)
      = .ok (some e)) := by
  exact C3_expiry_bounds ⟨2025, 1, 15, 0⟩ (by decide)
    (toMs ⟨2025, 1, 15, 0⟩ + 7200000) (by decide) 5 "minutes" (by decide)

end Shorty
